import Mathlib

/-!
# Verification of the Social Publish & Interaction Orchestrator

A shallow embedding, in Lean 4, of the core of the `virtual-prism` backend:
the Instagram credential store and lifecycle (`app/services/instagram_service.py`),
the scheduling and publish endpoints (`app/api/instagram.py`), and the
webhook-driven interaction engine (`app/api/interact.py`,
`app/services/interact_service.py`).

External effects (HTTP calls to the platform, the LLM draft generator, the
Telegram notifier, wall-clock time, uuid generation) are abstracted as
explicit oracle parameters; everything else is translated line-for-line from
the Python source.  Python dictionaries become association lists, Python
exceptions become explicit `Except`/error-code results, and the mutable
module-level stores become explicitly threaded state.
-/

namespace VirtualPrism

/-- Association-list upsert with Python-`dict` semantics: assigning to an
existing key replaces the value in place (iteration order preserved),
otherwise the new binding is appended at the end. -/
def upsert {α : Type} (k : String) (v : α) : List (String × α) → List (String × α)
  | [] => [(k, v)]
  | (k', v') :: rest => if k' = k then (k, v) :: rest else (k', v') :: upsert k v rest

/-- Association-list removal (`del d[k]` / dict key deletion). -/
def removeKey {α : Type} (k : String) : List (String × α) → List (String × α)
  | [] => []
  | (k', v') :: rest => if k' = k then rest else (k', v') :: removeKey k rest

/-!
## Credential store (`instagram_service.py`)

`_token_store : dict[str, dict]` maps a persona id to a record
`{ access_token, ig_account_id, ig_username, expires_in?, connected_at?, refreshed_at? }`.
Every writer in the source sets the first three fields, so they are plain
strings here; the remaining fields are optional (the env-seeded record, for
example, carries no `connected_at`).
-/

/-- One stored Connection record, the value type of `_token_store`. -/
structure Connection where
  access_token : String
  ig_account_id : String
  ig_username : String
  expires_in : Option Nat := none
  connected_at : Option String := none
  refreshed_at : Option String := none
  deriving DecidableEq, Repr

/-- The in-memory `_token_store` map. -/
abbrev TokenStore := List (String × Connection)

/-- The in-memory map together with its durable JSON mirror
(`data/instagram_tokens.json`).  `_load_token_store` repopulates `mem` from
`durable` at process start; `_save_token_store` copies `mem` over `durable`. -/
structure TokenState where
  mem : TokenStore
  durable : TokenStore
  deriving DecidableEq, Repr

/-- Source `_save_token_store`: writes the in-memory map to the JSON file.  The write
is wrapped in `try/except`: on failure (`saveOk = false`) a warning is logged
and the in-memory map is left as it is — nothing is rolled back. -/
def save_token_store (saveOk : Bool) (ts : TokenState) : TokenState :=
  if saveOk then { ts with durable := ts.mem } else ts

/-- Source `get_connection_status` result: `{"connected": False}` or the connected
record with only `ig_account_id`, `ig_username`, `connected_at` copied out. -/
inductive StatusResp where
  | notConnected
  | connected (ig_account_id ig_username : String) (connected_at : Option String)
  deriving DecidableEq, Repr

/-- Source `get_connection_status(persona_id)`: look up the stored token info; report
`connected: False` when absent, else the connected flag plus account id,
username and connect time (the `access_token` is never copied out). -/
def get_connection_status (store : TokenStore) (persona_id : String) : StatusResp :=
  match store.lookup persona_id with
  | none => .notConnected
  | some info => .connected info.ig_account_id info.ig_username info.connected_at

/-- Source `disconnect_persona(persona_id)`: delete the persona's token from the
in-memory map if present.  The source never calls `_save_token_store` here,
so the durable mirror is untouched. -/
def disconnect_persona (ts : TokenState) (persona_id : String) : TokenState × Bool :=
  match ts.mem.lookup persona_id with
  | some _ => ({ ts with mem := removeKey persona_id ts.mem }, true)
  | none => (ts, false)

/-!
## Credential lifecycle (`instagram_service.py`)

The network side of OAuth (short-lived token, long-lived upgrade, account
resolution, refresh grant) is abstracted as oracles; the store mutations are
translated exactly.
-/

/-- Outcomes of the external OAuth/refresh HTTP calls, as seen by
`exchange_code_for_token`. -/
structure OAuthOracle where
  /-- POST `api.instagram.com/oauth/access_token` → short-lived token. -/
  shortToken : Except String String
  /-- GET `graph.instagram.com/access_token` → (long-lived token, expires_in). -/
  longToken : String → Except String (String × Nat)
  /-- Source `get_instagram_account_id` → (ig_account_id, ig_username). -/
  resolveAccount : String → Except String (String × String)

/-- Source `exchange_code_for_token(code, state)`: short-lived token → long-lived
token → account resolution, then store the Connection under
`persona_id = state` and register the refresh job.  NOTE (faithful to the
source): this function never calls `_save_token_store`, so only the
in-memory map changes. -/
def exchange_code_for_token (o : OAuthOracle) (_code state : String) (now : String)
    (ts : TokenState) : TokenState × Except String Connection :=
  match o.shortToken with
  | .error e => (ts, .error e)
  | .ok shortTok =>
    match o.longToken shortTok with
    | .error e => (ts, .error e)
    | .ok (longTok, expiresIn) =>
      match o.resolveAccount longTok with
      | .error e => (ts, .error e)
      | .ok (igAccountId, igUsername) =>
        let conn : Connection :=
          { access_token := longTok
            ig_account_id := igAccountId
            ig_username := igUsername
            expires_in := some expiresIn
            connected_at := some now }
        ({ ts with mem := upsert state conn ts.mem }, .ok conn)

/-- Source `connect_with_access_token(persona_id, access_token, ig_user_id?, ig_username?)`:
resolve identity if not supplied, key the record by the resolved
`ig_user_id`, store it, and persist via `_save_token_store`. -/
def connect_with_access_token (resolve : String → Except String (String × String))
    (saveOk : Bool) (_persona_id access_token : String)
    (ig_user_id ig_username : Option String) (now : String)
    (ts : TokenState) : TokenState × Except String Connection :=
  let resolved : Except String (String × String) :=
    match ig_user_id, ig_username with
    | some uid, some uname => .ok (uid, uname)
    | _, _ =>
      match resolve access_token with
      | .error e => .error e
      | .ok (fid, funame) =>
        .ok (ig_user_id.getD fid, ig_username.getD funame)
  match resolved with
  | .error e => (ts, .error e)
  | .ok (uid, uname) =>
    let conn : Connection :=
      { access_token := access_token
        ig_account_id := uid
        ig_username := uname
        expires_in := some 5183944
        connected_at := some now }
    let ts1 := { ts with mem := upsert uid conn ts.mem }
    (save_token_store saveOk ts1, .ok conn)

/-- Telegram notifications observable from `refresh_instagram_token`. -/
inductive Notif where
  | refreshSuccess (persona_id : String)
  | refreshFailure (persona_id : String)
  deriving DecidableEq, Repr

/-- Source `refresh_instagram_token(persona_id)`: no stored token → log and return
(silent no-op).  Stored token with empty `access_token` → failure
notification, nothing else.  Otherwise call the refresh grant
(`refreshOracle`): on success update the record in memory, persist, notify
success; on any failure leave the record untouched and notify failure. -/
def refresh_instagram_token (refreshOracle : String → Except String (String × Nat))
    (saveOk : Bool) (now : String) (ts : TokenState) (persona_id : String) :
    TokenState × List Notif :=
  match ts.mem.lookup persona_id with
  | none => (ts, [])
  | some info =>
    if info.access_token = "" then
      (ts, [.refreshFailure persona_id])
    else
      match refreshOracle info.access_token with
      | .error _ => (ts, [.refreshFailure persona_id])
      | .ok (newTok, expiresIn) =>
        let info' := { info with
          access_token := newTok
          refreshed_at := some now
          expires_in := some expiresIn }
        let ts1 := { ts with mem := upsert persona_id info' ts.mem }
        (save_token_store saveOk ts1, [.refreshSuccess persona_id])

/-!
## Publish pipeline (`instagram_service.py`)

The platform HTTP calls are an oracle interface; the control flow of
`upload_photo` / `wait_for_container` / `publish_media` / `_execute_publish`
is translated exactly.  `_execute_publish` never writes `_token_store`, so it
returns the store it was given; it also returns the list of access tokens
under which a publish sequence was attempted, which makes the (absence of a)
credential-fallback retry directly observable.
-/

/-- Outcomes of the platform media-API HTTP calls. -/
structure IGApi where
  /-- Source `_ensure_jpeg_url`: format gate / reprojection; may fail (WebP without
  Pillow) or rewrite the URL. -/
  ensureJpeg : String → Except String String
  /-- POST `{base}/{ig_account_id}/media` → creation id, or the platform's
  own error message. -/
  createContainer : (ig_account_id image_url caption access_token : String) →
    Except String String
  /-- GET `{base}/{creation_id}?fields=status_code` on poll attempt `i` →
  status string (`"FINISHED"`, `"ERROR"`, `"IN_PROGRESS"`, ...), or an HTTP
  error. -/
  containerStatus : (creation_id access_token : String) → (attempt : Nat) →
    Except String String
  /-- POST `{base}/{ig_account_id}/media_publish` → media id. -/
  mediaPublish : (ig_account_id creation_id access_token : String) →
    Except String String

/-- Source `upload_photo(ig_account_id, image_url, caption, access_token)`:
format-gate the image URL, then create the media container.  A platform
client error surfaces the platform's own message (`"Meta API 400: ..."`). -/
def upload_photo (api : IGApi) (ig_account_id image_url caption access_token : String) :
    Except String String :=
  match api.ensureJpeg image_url with
  | .error e => .error e
  | .ok url =>
    match api.createContainer ig_account_id url caption access_token with
    | .error e => .error ("Meta API 400: " ++ e)
    | .ok creation_id => .ok creation_id

/-- The polling loop body of `wait_for_container`: `for attempt in
range(max_wait // 3)`, checking the container status every 3 seconds. -/
def waitLoop (api : IGApi) (creation_id access_token : String) :
    Nat → Nat → Except String Unit
  | 0, _ =>
    .error ("Media container " ++ creation_id ++ " not ready after 30s")
  | fuel + 1, attempt =>
    match api.containerStatus creation_id access_token attempt with
    | .error e => .error e
    | .ok status_code =>
      if status_code = "FINISHED" then .ok ()
      else if status_code = "ERROR" then
        .error ("Media container " ++ creation_id ++ " processing failed (ERROR)")
      else waitLoop api creation_id access_token fuel (attempt + 1)

/-- Source `wait_for_container(creation_id, access_token, max_wait=30)`: poll up to
`30 // 3 = 10` times; `FINISHED` succeeds, `ERROR` fails, timeout fails. -/
def wait_for_container (api : IGApi) (creation_id access_token : String) :
    Except String Unit :=
  waitLoop api creation_id access_token 10 0

/-- Source `publish_media(ig_account_id, creation_id, access_token)`: wait for the
container to be ready, then commit it.  Returns the published media id. -/
def publish_media (api : IGApi) (ig_account_id creation_id access_token : String) :
    Except String String :=
  match wait_for_container api creation_id access_token with
  | .error e => .error e
  | .ok () => api.mediaPublish ig_account_id creation_id access_token

/-- One full create → poll → commit sequence under a single credential
(the body of `_execute_publish` after the token lookup). -/
def publish_attempt (api : IGApi) (ig_account_id image_url caption access_token : String) :
    Except String String :=
  match upload_photo api ig_account_id image_url caption access_token with
  | .error e => .error e
  | .ok creation_id => publish_media api ig_account_id creation_id access_token

/-- Source `_execute_publish(persona_id, image_url, caption)`: `_require_token`, then
one upload + publish sequence under the stored credential.  The result also
carries the unchanged token store (the source never mutates `_token_store`
here) and the list of access tokens attempted. -/
def execute_publish (api : IGApi) (store : TokenStore)
    (persona_id image_url caption : String) :
    TokenStore × Except String String × List String :=
  match store.lookup persona_id with
  | none =>
    (store, .error ("Instagram account not connected for persona_id=" ++ persona_id), [])
  | some info =>
    (store, publish_attempt api info.ig_account_id image_url caption info.access_token,
      [info.access_token])

/-!
## Scheduler (`instagram_service.py` APScheduler usage + `api/instagram.py`)

Jobs live in APScheduler's durable job store.  A job's display name is
`f"{persona_id}:{caption[:30]}"` and `get_scheduled_posts` filters on that
prefix.  Times are UTC seconds (`Nat`); `datetime.now(utc).replace(second=0,
microsecond=0)` becomes flooring to the minute.  The uuid4 job ids become a
fresh-name counter.
-/

/-- One APScheduler job as added by `schedule_post`. -/
structure SchedJob where
  job_id : String
  name : String
  run_date : Nat
  persona_id : String
  image_url : String
  caption : String
  deriving DecidableEq, Repr

/-- The APScheduler job store, plus a counter standing in for uuid4. -/
structure SchedState where
  jobs : List SchedJob
  nextId : Nat
  deriving DecidableEq, Repr

/-- Fresh job-id generator (stands in for `str(uuid.uuid4())`). -/
def freshJobId (n : Nat) : String := "job-" ++ toString n

/-- Source `schedule_post(...)`: add a date-trigger job whose name embeds the
persona id and a caption prefix; return the generated job id. -/
def schedule_post (persona_id _ig_account_id image_url caption : String)
    (publish_at : Nat) (ss : SchedState) : String × SchedState :=
  let job_id := freshJobId ss.nextId
  let job : SchedJob :=
    { job_id := job_id
      name := persona_id ++ ":" ++ caption.take 30
      run_date := publish_at
      persona_id := persona_id
      image_url := image_url
      caption := caption }
  (job_id, { jobs := ss.jobs ++ [job], nextId := ss.nextId + 1 })

/-- What `get_scheduled_posts` reports per job. -/
structure ScheduledPostInfo where
  job_id : String
  name : String
  run_date : Nat
  persona_id : String
  deriving DecidableEq, Repr

/-- Source `get_scheduled_posts(persona_id)`: all jobs whose name starts with
`f"{persona_id}:"`. -/
def get_scheduled_posts (persona_id : String) (ss : SchedState) :
    List ScheduledPostInfo :=
  (ss.jobs.filter (fun j => (persona_id ++ ":").data.isPrefixOf j.name.data)).map
    (fun j =>
      { job_id := j.job_id, name := j.name, run_date := j.run_date
        persona_id := persona_id })

/-- Source `cancel_scheduled_post(job_id)`: remove the job, `False` when absent. -/
def cancel_scheduled_post (job_id : String) (ss : SchedState) : Bool × SchedState :=
  if ss.jobs.any (fun j => j.job_id = job_id) then
    (true, { ss with jobs := ss.jobs.filter (fun j => j.job_id ≠ job_id) })
  else
    (false, ss)

/-- An HTTP error response (`HTTPException(status_code, detail)`). -/
structure HttpError where
  status : Nat
  detail : String
  deriving DecidableEq, Repr

/-- One item of `ScheduleRequest.posts`. -/
structure PostItem where
  image_url : String
  caption : String
  publish_at : Nat
  deriving DecidableEq, Repr

/-- Source `datetime.now(timezone.utc).replace(second=0, microsecond=0)`:
the current instant floored to the minute (the "60-second grace" cutoff). -/
def floorMinute (now : Nat) : Nat := now - now % 60

/-- The per-post loop of `create_schedule`: validate each `publish_at`
against the floored now and schedule it; the first invalid time aborts with
a 400, keeping the jobs already added (mutations before the raise persist). -/
def scheduleLoop (persona_id ig_account_id : String) (now : Nat) :
    List PostItem → SchedState → List (String × Nat) →
    SchedState × Except HttpError (List (String × Nat))
  | [], ss, acc => (ss, .ok acc.reverse)
  | post :: rest, ss, acc =>
    if post.publish_at ≤ floorMinute now then
      (ss, .error ⟨400, "排程時間必須是未來時間。收到：" ++ toString post.publish_at ++
        "（請選擇至少 1 分鐘後的時間）"⟩)
    else
      let (job_id, ss') := schedule_post persona_id ig_account_id
        post.image_url post.caption post.publish_at ss
      scheduleLoop persona_id ig_account_id now rest ss' ((job_id, post.publish_at) :: acc)

/-- Source `POST /api/instagram/schedule` (`create_schedule`): 400 when the persona
has no Connection; otherwise validate and schedule each post in order. -/
def create_schedule (store : TokenStore) (now : Nat) (persona_id : String)
    (body_ig_account_id : Option String) (posts : List PostItem)
    (ss : SchedState) : SchedState × Except HttpError (List (String × Nat)) :=
  match get_connection_status store persona_id with
  | .notConnected =>
    (ss, .error ⟨400, "Instagram account not connected for persona_id=" ++ persona_id ++
      ". Call /api/instagram/auth first."⟩)
  | .connected ig_account_id _ _ =>
    let igAcct := body_ig_account_id.getD ig_account_id
    scheduleLoop persona_id igAcct now posts ss []

/-- Source `POST /api/instagram/publish-now` (`publish_now`): 400 when the persona
has no Connection; otherwise run `_execute_publish`, mapping any pipeline
failure to a 500. -/
def publish_now (api : IGApi) (store : TokenStore)
    (persona_id image_url caption : String) : Except HttpError String :=
  match get_connection_status store persona_id with
  | .notConnected =>
    .error ⟨400, "Instagram account not connected for persona_id=" ++ persona_id ++
      ". Call /api/instagram/auth first."⟩
  | .connected _ _ _ =>
    match (execute_publish api store persona_id image_url caption).2.1 with
    | .error e => .error ⟨500, e⟩
    | .ok media_id => .ok media_id

/-!
## Interaction engine (`app/api/interact.py`, `app/services/interact_service.py`)

The webhook handler walks a parsed JSON payload with `.get` calls, so the
payload is modelled as a small JSON value type with Python method semantics:
`.get` on a non-dict raises `AttributeError`, iterating a non-iterable
raises `TypeError`, and `in` on a non-string raises `TypeError`.  Errors
raised inside the handler's per-change `try` are caught and logged; errors
raised outside it propagate out of the route (HTTP 500).
-/

/-- Python exceptions distinguished by the embedded code. -/
inductive PyErr where
  | attributeError
  | typeError
  | valueError (msg : String)
  | runtimeError (msg : String)
  deriving DecidableEq, Repr

/-- A parsed JSON value (what `await request.json()` yields). -/
inductive JVal where
  | jnull
  | jbool (b : Bool)
  | jnum (n : Int)
  | jstr (s : String)
  | jarr (elems : List JVal)
  | jobj (fields : List (String × JVal))

/-- Python `isinstance(v, dict)`. -/
def JVal.isObj : JVal → Bool
  | .jobj _ => true
  | _ => false

/-- Python `v.get(key, default)`: only dicts have `.get`; anything else
raises `AttributeError`. -/
def pyGet (v : JVal) (key : String) (default : JVal) : Except PyErr JVal :=
  match v with
  | .jobj fields => .ok ((fields.lookup key).getD default)
  | _ => .error .attributeError

/-- Python `for x in v`: lists yield their elements, strings their
characters, dicts their keys; other values raise `TypeError`. -/
def pyIter (v : JVal) : Except PyErr (List JVal) :=
  match v with
  | .jarr xs => .ok xs
  | .jstr s => .ok (s.data.map (fun c => .jstr (String.mk [c])))
  | .jobj fields => .ok (fields.map (fun kv => .jstr kv.1))
  | _ => .error .typeError

/-- Python truthiness (`if not comment_text`). -/
def truthy : JVal → Bool
  | .jnull => false
  | .jbool b => b
  | .jnum n => n != 0
  | .jstr s => s ≠ ""
  | .jarr xs => !xs.isEmpty
  | .jobj fs => !fs.isEmpty

/-- Python `v == s` for a string literal `s`: true only for an equal str. -/
def jvalEqStr (v : JVal) (s : String) : Bool :=
  match v with
  | .jstr t => t = s
  | _ => false

/-- Substring test on char lists (Python `needle in hay` for strings). -/
def containsSub (needle : List Char) : List Char → Bool
  | [] => needle.isEmpty
  | c :: rest => needle.isPrefixOf (c :: rest) || containsSub needle rest

/-- Python `needle in hay` for two strings. -/
def strContains (hay needle : String) : Bool := containsSub needle.data hay.data

/-- Source `NEGATIVE_KEYWORDS` (`interact_service.py`). -/
def NEGATIVE_KEYWORDS : List String :=
  ["詐騙", "假的", "退款", "投訴", "死", "爛", "垃圾", "騙", "黑心"]

/-- Source `check_risk(text)`: `"high"` when any negative keyword occurs in the
text, else `"low"`. -/
def check_risk (text : String) : String :=
  if NEGATIVE_KEYWORDS.any (fun kw => strContains text kw) then "high" else "low"

/-- One `ReplyDraft` record.  The comment-derived fields keep their raw JSON
values, as Python stores whatever the payload carried. -/
structure ReplyDraft where
  reply_id : String
  persona_id : String
  ig_comment_id : JVal
  ig_media_id : JVal
  commenter_name : JVal
  comment_text : JVal
  draft_text : String
  risk_level : String
  status : String
  created_at : String

/-- The `pending_replies` dict plus a fresh-id counter (stands in for
`uuid.uuid4()`). -/
structure DraftState where
  replies : List (String × ReplyDraft)
  nextId : Nat

/-- Fresh reply-id generator (stands in for `str(uuid.uuid4())`). -/
def freshReplyId (n : Nat) : String := "reply-" ++ toString n

/-- Source `add_pending_reply(...)`: create a fresh draft with status
`"pending"` and store it. -/
def add_pending_reply (now persona_id : String)
    (ig_comment_id ig_media_id commenter_name comment_text : JVal)
    (draft_text risk_level : String) (ds : DraftState) : ReplyDraft × DraftState :=
  let reply_id := freshReplyId ds.nextId
  let draft : ReplyDraft :=
    { reply_id := reply_id
      persona_id := persona_id
      ig_comment_id := ig_comment_id
      ig_media_id := ig_media_id
      commenter_name := commenter_name
      comment_text := comment_text
      draft_text := draft_text
      risk_level := risk_level
      status := "pending"
      created_at := now }
  (draft, { replies := upsert reply_id draft ds.replies, nextId := ds.nextId + 1 })

/-- Source `get_pending_replies(persona_id)`: all stored drafts of the persona
whose status is `"pending"`. -/
def get_pending_replies (persona_id : String) (replies : List (String × ReplyDraft)) :
    List ReplyDraft :=
  (replies.map Prod.snd).filter
    (fun d => d.persona_id = persona_id && d.status = "pending")

/-- Source `send_reply(reply_id, access_token)`: unknown id → `ValueError`;
non-pending draft → `ValueError`; then POST the reply to the platform
(`replyOk` is the outcome of that call) — on failure raise `RuntimeError`
leaving the draft pending, on success mark the draft `"sent"`. -/
def send_reply (replyOk : JVal → String → Bool)
    (replies : List (String × ReplyDraft)) (reply_id access_token : String) :
    List (String × ReplyDraft) × Except PyErr ReplyDraft :=
  match replies.lookup reply_id with
  | none => (replies, .error (.valueError ("Reply not found: " ++ reply_id)))
  | some draft =>
    if draft.status ≠ "pending" then
      (replies, .error (.valueError ("Reply is not in pending state: " ++ draft.status)))
    else if replyOk draft.ig_comment_id access_token then
      let draft' := { draft with status := "sent" }
      (upsert reply_id draft' replies, .ok draft')
    else
      (replies, .error (.runtimeError "IG API error"))

/-- Source `dismiss_reply(reply_id)`: unknown id → `ValueError`; otherwise mark
the draft `"dismissed"` — the source performs no check of the current
status before overwriting it. -/
def dismiss_reply (replies : List (String × ReplyDraft)) (reply_id : String) :
    List (String × ReplyDraft) × Except PyErr ReplyDraft :=
  match replies.lookup reply_id with
  | none => (replies, .error (.valueError ("Reply not found: " ++ reply_id)))
  | some draft =>
    let draft' := { draft with status := "dismissed" }
    (upsert reply_id draft' replies, .ok draft')

/-- Source `get_auto_reply_setting(persona_id)`: stored mode or `"draft"`. -/
def get_auto_reply_setting (settings : List (String × String)) (persona_id : String) :
    String :=
  (settings.lookup persona_id).getD "draft"

/-- Source `set_auto_reply_setting(persona_id, mode)`: reject any mode outside
`{"draft", "auto"}`. -/
def set_auto_reply_setting (settings : List (String × String))
    (persona_id mode : String) : Except PyErr (List (String × String)) :=
  if mode = "draft" ∨ mode = "auto" then .ok (upsert persona_id mode settings)
  else .error (.valueError ("Invalid mode: " ++ mode ++ ". Must be 'draft' or 'auto'."))

/-- Source `_resolve_persona_id(ig_account_id)`: scan the token store for a
Connection whose `ig_account_id` equals the webhook value; fall back to
`"demo"`. -/
def resolve_persona (store : TokenStore) (ig_account_id : JVal) : String :=
  match store.find? (fun pc => jvalEqStr ig_account_id pc.2.ig_account_id) with
  | some pc => pc.1
  | none => "demo"

/-- External effects visible to the webhook handler. -/
structure WebhookEnv where
  /-- Source `generate_reply_draft(persona_id, comment_text, commenter_name)`: total —
  every failure path inside it returns a canned fallback reply. -/
  draftGen : String → JVal → JVal → String
  /-- Outcome of the POST `{comment_id}/replies` platform call inside
  `send_reply`. -/
  replyOk : JVal → String → Bool
  /-- Timestamp recorded as `created_at`. -/
  now : String

/-- The body of the webhook handler's per-change `try` block: generate the
draft text, classify risk (a non-str comment raises `TypeError` inside the
`try`, which the `except` absorbs leaving the store unmutated), read the
mode, and route: auto + low risk + non-empty stored token → add the draft
and send it (a failed send is caught, leaving the draft pending); otherwise
add the draft and leave it pending. -/
def handle_comment (env : WebhookEnv) (store : TokenStore)
    (settings : List (String × String)) (persona_id : String)
    (ig_comment_id ig_media_id commenter_name comment_text : JVal)
    (ds : DraftState) : DraftState :=
  let draft_text := env.draftGen persona_id comment_text commenter_name
  match comment_text with
  | .jstr s =>
    let risk_level := check_risk s
    let mode := get_auto_reply_setting settings persona_id
    if mode = "auto" ∧ risk_level = "low" then
      let access_token := ((store.lookup persona_id).map Connection.access_token).getD ""
      if access_token ≠ "" then
        let (draft, ds1) := add_pending_reply env.now persona_id ig_comment_id
          ig_media_id commenter_name comment_text draft_text risk_level ds
        let (replies', _) := send_reply env.replyOk ds1.replies draft.reply_id access_token
        { ds1 with replies := replies' }
      else
        (add_pending_reply env.now persona_id ig_comment_id ig_media_id
          commenter_name comment_text draft_text risk_level ds).2
    else
      (add_pending_reply env.now persona_id ig_comment_id ig_media_id
        commenter_name comment_text draft_text risk_level ds).2
  | _ => ds

/-- Processing of one element of `entry[].changes[]`: the destructuring
`.get` chain runs before the `try` block, so its failures propagate; the
guarded tail is `handle_comment`. -/
def processChange (env : WebhookEnv) (store : TokenStore)
    (settings : List (String × String)) (change : JVal) (ds : DraftState) :
    Except PyErr DraftState := do
  let field ← pyGet change "field" (.jstr "")
  if !jvalEqStr field "comments" then
    return ds
  let value ← pyGet change "value" (.jobj [])
  let ig_comment_id ← pyGet value "id" (.jstr "")
  let mediaRaw ← pyGet value "media" .jnull
  let ig_media_id ←
    if mediaRaw.isObj then pyGet mediaRaw "id" (.jstr "")
    else pyGet value "media_id" (.jstr "")
  let fromVal ← pyGet value "from" (.jobj [])
  let commenter_name ← pyGet fromVal "name" (.jstr "匿名用戶")
  let comment_text ← pyGet value "text" (.jstr "")
  let from_id ← pyGet fromVal "id" (.jstr "")
  let persona_id := resolve_persona store from_id
  if !truthy comment_text then
    return ds
  return handle_comment env store settings persona_id ig_comment_id ig_media_id
    commenter_name comment_text ds

/-- Run the changes of one entry in order; the first uncaught error stops the
walk with the mutations made so far kept. -/
def runChanges (f : JVal → DraftState → Except PyErr DraftState) :
    List JVal → DraftState → DraftState × Option PyErr
  | [], ds => (ds, none)
  | c :: cs, ds =>
    match f c ds with
    | .ok ds' => runChanges f cs ds'
    | .error e => (ds, some e)

/-- Processing of one element of `payload["entry"]`. -/
def processEntry (env : WebhookEnv) (store : TokenStore)
    (settings : List (String × String)) (entry : JVal) (ds : DraftState) :
    DraftState × Option PyErr :=
  match pyGet entry "changes" (.jarr []) with
  | .error e => (ds, some e)
  | .ok changesVal =>
    match pyIter changesVal with
    | .error e => (ds, some e)
    | .ok changes => runChanges (processChange env store settings) changes ds

/-- Run the entries in order; the first uncaught error stops the walk. -/
def runEntries (g : JVal → DraftState → DraftState × Option PyErr) :
    List JVal → DraftState → DraftState × Option PyErr
  | [], ds => (ds, none)
  | e :: es, ds =>
    match g e ds with
    | (ds', none) => runEntries g es ds'
    | (ds', some err) => (ds', some err)

/-- Source `POST /webhook/instagram` (`instagram_webhook`): walk
`entry[].changes[]`, handling comment events.  `.ok ()` is the
`{"status": "ok"}` response; an uncaught error escapes the route (HTTP 500),
keeping whatever mutations were already made. -/
def instagram_webhook (env : WebhookEnv) (store : TokenStore)
    (settings : List (String × String)) (payload : JVal) (ds : DraftState) :
    DraftState × Except PyErr Unit :=
  match pyGet payload "entry" (.jarr []) with
  | .error e => (ds, .error e)
  | .ok entriesVal =>
    match pyIter entriesVal with
    | .error e => (ds, .error e)
    | .ok entries =>
      match runEntries (processEntry env store settings) entries ds with
      | (ds', none) => (ds', .ok ())
      | (ds', some e) => (ds', .error e)

/-- A webhook POST request as delivered: the route never reads the
`X-Hub-Signature-256` header and `main.py` lists the webhook path in
`_PUBLIC_PATHS` (exempt from the API-key middleware), so the signature
argument is ignored — no verification of any kind happens. -/
def webhook_post (env : WebhookEnv) (store : TokenStore)
    (settings : List (String × String)) (_signature : Option String)
    (payload : JVal) (ds : DraftState) : DraftState × Except PyErr Unit :=
  instagram_webhook env store settings payload ds

/-- A well-formed webhook comment change, as Meta delivers it:
`{"field": "comments", "value": {"id": cid, "from": {"id": fid, "name": nm},
"text": txt}}`. -/
def commentChange (cid fid nm txt : String) : JVal :=
  .jobj [("field", .jstr "comments"),
    ("value", .jobj [("id", .jstr cid),
      ("from", .jobj [("id", .jstr fid), ("name", .jstr nm)]),
      ("text", .jstr txt)])]

/-- A webhook entry carrying one comment change. -/
def commentEntry (cid fid nm txt : String) : JVal :=
  .jobj [("changes", .jarr [commentChange cid fid nm txt])]

/-- A webhook payload carrying one entry with one comment change. -/
def commentPayload (cid fid nm txt : String) : JVal :=
  .jobj [("entry", .jarr [commentEntry cid fid nm txt])]

/-!
## Theorems for the claims
-/

theorem lookup_upsert_self {α : Type} (k : String) (v : α) :
    ∀ l : List (String × α), (upsert k v l).lookup k = some v := by
  intro l
  induction l with
  | nil => simp [upsert, List.lookup]
  | cons hd tl ih =>
    obtain ⟨k₀, v₀⟩ := hd
    by_cases h : k₀ = k
    · simp [upsert, h, List.lookup]
    · have hb : (k == k₀) = false := beq_eq_false_iff_ne.mpr (Ne.symm h)
      simp only [upsert, if_neg h, List.lookup, hb]
      exact ih

theorem lookup_upsert_other {α : Type} (k k' : String) (v : α) (hne : k' ≠ k) :
    ∀ l : List (String × α), (upsert k v l).lookup k' = l.lookup k' := by
  intro l
  have hb : (k' == k) = false := beq_eq_false_iff_ne.mpr hne
  induction l with
  | nil => simp [upsert, List.lookup, hb]
  | cons hd tl ih =>
    obtain ⟨k₀, v₀⟩ := hd
    by_cases h : k₀ = k
    · subst h
      simp [upsert, List.lookup, hb]
    · by_cases h' : k' = k₀
      · subst h'
        simp [upsert, if_neg h, List.lookup]
      · have hb' : (k' == k₀) = false := beq_eq_false_iff_ne.mpr h'
        simp only [upsert, if_neg h, List.lookup, hb']
        exact ih

theorem processChange_comment (env : WebhookEnv) (store : TokenStore)
    (settings : List (String × String)) (cid fid nm txt : String) (ds : DraftState)
    (htxt : txt ≠ "") :
    processChange env store settings (commentChange cid fid nm txt) ds =
      .ok (handle_comment env store settings (resolve_persona store (.jstr fid))
        (.jstr cid) (.jstr "") (.jstr nm) (.jstr txt) ds) := by
  simp [processChange, commentChange, pyGet, List.lookup, jvalEqStr, JVal.isObj,
    truthy, htxt, bind, Except.bind, pure, Except.pure]

theorem processEntry_comment (env : WebhookEnv) (store : TokenStore)
    (settings : List (String × String)) (cid fid nm txt : String) (ds : DraftState)
    (htxt : txt ≠ "") :
    processEntry env store settings (commentEntry cid fid nm txt) ds =
      (handle_comment env store settings (resolve_persona store (.jstr fid))
        (.jstr cid) (.jstr "") (.jstr nm) (.jstr txt) ds, none) := by
  simp [processEntry, commentEntry, pyGet, List.lookup, pyIter, runChanges,
    processChange_comment env store settings cid fid nm txt ds htxt]

theorem instagram_webhook_comment (env : WebhookEnv) (store : TokenStore)
    (settings : List (String × String)) (cid fid nm txt : String) (ds : DraftState)
    (htxt : txt ≠ "") :
    instagram_webhook env store settings (commentPayload cid fid nm txt) ds =
      (handle_comment env store settings (resolve_persona store (.jstr fid))
        (.jstr cid) (.jstr "") (.jstr nm) (.jstr txt) ds, .ok ()) := by
  simp [instagram_webhook, commentPayload, pyGet, List.lookup, pyIter, runEntries,
    processEntry_comment env store settings cid fid nm txt ds htxt]

/-- C10: the connection-status result never contains the access token: it is
exactly `connected: false` when no Connection exists, otherwise exactly the
connected flag, account id, username and connect time; hence two token
stores that differ only in a persona's `access_token` value yield identical
status responses. -/
theorem connection_status_never_leaks_token (s₁ s₂ : TokenStore) (p : String) :
    (s₁.lookup p = none → get_connection_status s₁ p = .notConnected) ∧
    (∀ c, s₁.lookup p = some c →
      get_connection_status s₁ p = .connected c.ig_account_id c.ig_username c.connected_at) ∧
    ((s₁.lookup p).map (fun c => { c with access_token := "" }) =
        (s₂.lookup p).map (fun c => { c with access_token := "" }) →
      get_connection_status s₁ p = get_connection_status s₂ p) := by
  refine ⟨fun h => by simp [get_connection_status, h],
    fun c h => by simp [get_connection_status, h], fun h => ?_⟩
  unfold get_connection_status
  cases h₁ : s₁.lookup p with
  | none =>
    cases h₂ : s₂.lookup p with
    | none => rfl
    | some c₂ => rw [h₁, h₂] at h; simp at h
  | some c₁ =>
    cases h₂ : s₂.lookup p with
    | none => rw [h₁, h₂] at h; simp at h
    | some c₂ =>
      rw [h₁, h₂] at h
      cases c₁
      cases c₂
      simp_all [Connection.mk.injEq]

/-- Witness for `connection_status_never_leaks_token` at two concrete stores
that differ only in the access token. -/
theorem connection_status_never_leaks_token_witness :
    get_connection_status [("p1", ⟨"tokA", "a1", "u1", none, some "t1", none⟩)] "p1" =
      get_connection_status [("p1", ⟨"tokB", "a1", "u1", none, some "t1", none⟩)] "p1" :=
  (connection_status_never_leaks_token
    [("p1", ⟨"tokA", "a1", "u1", none, some "t1", none⟩)]
    [("p1", ⟨"tokB", "a1", "u1", none, some "t1", none⟩)] "p1").2.2 (by rfl)

/-- C9: token renewal for a persona with no stored Connection is a silent
no-op — state unchanged and no notification; and when the refresh call
fails, the whole stored state (token included) is left unchanged and exactly
one failure notification is emitted. -/
theorem refresh_token_noop_and_failure_paths
    (oracle : String → Except String (String × Nat)) (saveOk : Bool)
    (now : String) (ts : TokenState) (p : String) :
    (ts.mem.lookup p = none →
      refresh_instagram_token oracle saveOk now ts p = (ts, [])) ∧
    (∀ info e, ts.mem.lookup p = some info → info.access_token ≠ "" →
      oracle info.access_token = .error e →
      refresh_instagram_token oracle saveOk now ts p = (ts, [.refreshFailure p])) := by
  constructor
  · intro h
    simp [refresh_instagram_token, h]
  · intro info e hlook htok horacle
    simp [refresh_instagram_token, hlook, htok, horacle]

/-- Witness for `refresh_token_noop_and_failure_paths`: an empty store for
the no-op part, and a store whose refresh call fails for the failure part. -/
theorem refresh_token_noop_and_failure_paths_witness :
    (refresh_instagram_token (fun _ => .error "boom") true "t1"
        ⟨[], []⟩ "p1" = (⟨[], []⟩, [])) ∧
    (refresh_instagram_token (fun _ => .error "boom") true "t1"
        ⟨[("p1", { access_token := "T", ig_account_id := "a", ig_username := "u" })], []⟩
        "p1" =
      (⟨[("p1", { access_token := "T", ig_account_id := "a", ig_username := "u" })], []⟩,
        [.refreshFailure "p1"])) :=
  ⟨(refresh_token_noop_and_failure_paths (fun _ => .error "boom") true "t1"
      ⟨[], []⟩ "p1").1 rfl,
    (refresh_token_noop_and_failure_paths (fun _ => .error "boom") true "t1"
      ⟨[("p1", { access_token := "T", ig_account_id := "a", ig_username := "u" })], []⟩
      "p1").2 { access_token := "T", ig_account_id := "a", ig_username := "u" }
      "boom" rfl (by decide) rfl⟩

/-- C8: for a persona with no stored Connection, the status endpoint reports
`connected = false`, and both the schedule and publish-now endpoints fail
with a 400 error whose detail mentions that persona id. -/
theorem no_connection_status_schedule_publish (store : TokenStore) (p : String)
    (api : IGApi) (now : Nat) (bodyIg : Option String) (posts : List PostItem)
    (ss : SchedState) (img cap : String) (h : store.lookup p = none) :
    get_connection_status store p = .notConnected ∧
    (∃ e, create_schedule store now p bodyIg posts ss = (ss, .error e) ∧
      e.status = 400 ∧ ∃ pre post, e.detail = pre ++ p ++ post) ∧
    (∃ e, publish_now api store p img cap = .error e ∧
      e.status = 400 ∧ ∃ pre post, e.detail = pre ++ p ++ post) := by
  have hst : get_connection_status store p = .notConnected := by
    simp [get_connection_status, h]
  refine ⟨hst,
    ⟨⟨400, "Instagram account not connected for persona_id=" ++ p ++
        ". Call /api/instagram/auth first."⟩, ?_, rfl,
      "Instagram account not connected for persona_id=",
      ". Call /api/instagram/auth first.", rfl⟩,
    ⟨⟨400, "Instagram account not connected for persona_id=" ++ p ++
        ". Call /api/instagram/auth first."⟩, ?_, rfl,
      "Instagram account not connected for persona_id=",
      ". Call /api/instagram/auth first.", rfl⟩⟩
  · simp [create_schedule, hst]
  · simp [publish_now, hst]

/-- Witness for `no_connection_status_schedule_publish` at an empty store. -/
theorem no_connection_status_schedule_publish_witness :
    get_connection_status [] "ghost" = .notConnected ∧
    (∃ e, create_schedule [] 100 "ghost" none [⟨"i", "c", 500⟩] ⟨[], 0⟩ =
        (⟨[], 0⟩, .error e) ∧
      e.status = 400 ∧ ∃ pre post, e.detail = pre ++ "ghost" ++ post) ∧
    (∃ e, publish_now
        ⟨fun u => .ok u, fun _ _ _ _ => .ok "c", fun _ _ _ => .ok "FINISHED",
          fun _ _ _ => .ok "m"⟩ [] "ghost" "i" "c" = .error e ∧
      e.status = 400 ∧ ∃ pre post, e.detail = pre ++ "ghost" ++ post) :=
  no_connection_status_schedule_publish [] "ghost"
    ⟨fun u => .ok u, fun _ _ _ _ => .ok "c", fun _ _ _ => .ok "FINISHED",
      fun _ _ _ => .ok "m"⟩ 100 none [⟨"i", "c", 500⟩] ⟨[], 0⟩ "i" "c" rfl

/-- C2 counterexample: a draft whose status is already `"sent"` (a terminal
state per the claim) is nevertheless transitioned to `"dismissed"` by
`dismiss_reply` — the second transition succeeds and changes the status,
where the claim requires it to fail and leave the status unchanged. -/
theorem dismiss_sent_draft_succeeds :
    (dismiss_reply
        [("r1", ⟨"r1", "p1", .jstr "c1", .jstr "m1", .jstr "Bob", .jstr "hi",
          "thanks", "low", "sent", "t0"⟩)] "r1").2 =
      .ok ⟨"r1", "p1", .jstr "c1", .jstr "m1", .jstr "Bob", .jstr "hi",
        "thanks", "low", "dismissed", "t0"⟩ ∧
    ((dismiss_reply
        [("r1", ⟨"r1", "p1", .jstr "c1", .jstr "m1", .jstr "Bob", .jstr "hi",
          "thanks", "low", "sent", "t0"⟩)] "r1").1).lookup "r1" =
      some ⟨"r1", "p1", .jstr "c1", .jstr "m1", .jstr "Bob", .jstr "hi",
        "thanks", "low", "dismissed", "t0"⟩ :=
  ⟨rfl, rfl⟩

/-- C2 amended: only a pending draft may transition to `"sent"` —
`send_reply` on a draft in any other status fails with a `ValueError` and
leaves the store unchanged — but `dismiss_reply` marks any existing draft
`"dismissed"` regardless of its current status, so `"sent"` and
`"dismissed"` are terminal only with respect to `send_reply`, not
`dismiss_reply`. -/
theorem send_requires_pending_dismiss_does_not
    (replyOk : JVal → String → Bool) (replies : List (String × ReplyDraft))
    (rid tok : String) (d : ReplyDraft) (hlook : replies.lookup rid = some d)
    (hnp : d.status ≠ "pending") :
    send_reply replyOk replies rid tok =
      (replies, .error (.valueError ("Reply is not in pending state: " ++ d.status))) ∧
    (dismiss_reply replies rid).2 = .ok { d with status := "dismissed" } ∧
    ((dismiss_reply replies rid).1).lookup rid = some { d with status := "dismissed" } := by
  refine ⟨by simp [send_reply, hlook, hnp], by simp [dismiss_reply, hlook], ?_⟩
  simp only [dismiss_reply, hlook]
  exact lookup_upsert_self rid _ replies

/-- Witness for `send_requires_pending_dismiss_does_not` at a concrete
already-sent draft. -/
theorem send_requires_pending_dismiss_does_not_witness :
    send_reply (fun _ _ => true)
        [("r1", ⟨"r1", "p1", .jstr "c1", .jstr "m1", .jstr "Bob", .jstr "hi",
          "thanks", "low", "sent", "t0"⟩)] "r1" "tok" =
      ([("r1", ⟨"r1", "p1", .jstr "c1", .jstr "m1", .jstr "Bob", .jstr "hi",
          "thanks", "low", "sent", "t0"⟩)],
        .error (.valueError "Reply is not in pending state: sent")) :=
  (send_requires_pending_dismiss_does_not (fun _ _ => true)
    [("r1", ⟨"r1", "p1", .jstr "c1", .jstr "m1", .jstr "Bob", .jstr "hi",
      "thanks", "low", "sent", "t0"⟩)] "r1" "tok"
    ⟨"r1", "p1", .jstr "c1", .jstr "m1", .jstr "Bob", .jstr "hi",
      "thanks", "low", "sent", "t0"⟩ rfl (by decide)).1

/-- C4 counterexample: `disconnect_persona` removes the Connection from the
in-memory map but never flushes, so right after this mutation the durable
copy does not mirror memory — refuting "every mutation triggers a flush". -/
theorem disconnect_does_not_flush :
    (disconnect_persona
        ⟨[("p1", ⟨"T", "a1", "u1", none, some "t0", none⟩)],
          [("p1", ⟨"T", "a1", "u1", none, some "t0", none⟩)]⟩ "p1").1.mem = [] ∧
    (disconnect_persona
        ⟨[("p1", ⟨"T", "a1", "u1", none, some "t0", none⟩)],
          [("p1", ⟨"T", "a1", "u1", none, some "t0", none⟩)]⟩ "p1").1.durable =
      [("p1", ⟨"T", "a1", "u1", none, some "t0", none⟩)] ∧
    (disconnect_persona
        ⟨[("p1", ⟨"T", "a1", "u1", none, some "t0", none⟩)],
          [("p1", ⟨"T", "a1", "u1", none, some "t0", none⟩)]⟩ "p1").1.durable ≠
      (disconnect_persona
        ⟨[("p1", ⟨"T", "a1", "u1", none, some "t0", none⟩)],
          [("p1", ⟨"T", "a1", "u1", none, some "t0", none⟩)]⟩ "p1").1.mem :=
  ⟨rfl, rfl, by decide⟩

/-- C4 amended: only the direct-connect upsert (and a successful token
refresh) flush the in-memory map to the durable copy — a failed flush keeps
the in-memory change without rollback — while the OAuth-exchange upsert and
the disconnect remove mutate memory only and leave the durable copy
untouched. -/
theorem write_through_only_on_direct_connect
    (resolve : String → Except String (String × String)) (pid tok uid uname now : String)
    (o : OAuthOracle) (code state p : String) (ts : TokenState) :
    ((connect_with_access_token resolve true pid tok (some uid) (some uname) now ts).1.durable =
      (connect_with_access_token resolve true pid tok (some uid) (some uname) now ts).1.mem) ∧
    ((connect_with_access_token resolve false pid tok (some uid) (some uname) now ts).1.mem =
        upsert uid ⟨tok, uid, uname, some 5183944, some now, none⟩ ts.mem ∧
      (connect_with_access_token resolve false pid tok (some uid) (some uname) now ts).1.durable =
        ts.durable) ∧
    ((exchange_code_for_token o code state now ts).1.durable = ts.durable) ∧
    ((disconnect_persona ts p).1.durable = ts.durable) := by
  refine ⟨rfl, ⟨rfl, rfl⟩, ?_, ?_⟩
  · unfold exchange_code_for_token
    rcases hs : o.shortToken with e | st <;> simp only [hs]
    rcases hl : o.longToken st with e | ⟨lt, exp⟩ <;> simp only [hl]
    rcases hr : o.resolveAccount lt with e | ⟨a, u⟩ <;> simp only [hr]
  · unfold disconnect_persona
    rcases hm : ts.mem.lookup p with _ | c <;> simp only [hm]

/-- C3 counterexample: the publish sequence fails under the persona's stored
credential `"T"` while a distinct fallback credential `"F"` would succeed
(`publish_attempt` under `"F"` returns a media id), yet `_execute_publish`
raises without ever attempting the fallback (`"F"` is not among the
attempted tokens) and without touching the stored Connection — there is no
retry, no promotion, against the claim. -/
theorem publish_never_retries_under_fallback :
    publish_attempt
        ⟨fun u => .ok u,
          fun _ _ _ t => if t = "F" then .ok "c1" else .error "invalid primary token",
          fun _ _ _ => .ok "FINISHED", fun _ _ _ => .ok "m1"⟩
        "a1" "img" "cap" "F" = .ok "m1" ∧
    execute_publish
        ⟨fun u => .ok u,
          fun _ _ _ t => if t = "F" then .ok "c1" else .error "invalid primary token",
          fun _ _ _ => .ok "FINISHED", fun _ _ _ => .ok "m1"⟩
        [("p1", ⟨"T", "a1", "u1", none, some "t0", none⟩)] "p1" "img" "cap" =
      ([("p1", ⟨"T", "a1", "u1", none, some "t0", none⟩)],
        .error "Meta API 400: invalid primary token", ["T"]) ∧
    "F" ∉ (execute_publish
        ⟨fun u => .ok u,
          fun _ _ _ t => if t = "F" then .ok "c1" else .error "invalid primary token",
          fun _ _ _ => .ok "FINISHED", fun _ _ _ => .ok "m1"⟩
        [("p1", ⟨"T", "a1", "u1", none, some "t0", none⟩)] "p1" "img" "cap").2.2 :=
  ⟨rfl, rfl, by decide⟩

/-- C3 amended: `_execute_publish` runs the create/poll/publish sequence
exactly once, under the persona's stored credential only; the token store is
returned unchanged (no credential is ever promoted), and when that single
attempt fails its error propagates to the caller as-is (the original message
preserved) — no fallback retry of any kind occurs. -/
theorem execute_publish_single_attempt (api : IGApi) (store : TokenStore)
    (p img cap : String) (conn : Connection) (h : store.lookup p = some conn) :
    execute_publish api store p img cap =
      (store, publish_attempt api conn.ig_account_id img cap conn.access_token,
        [conn.access_token]) ∧
    (∀ e, publish_attempt api conn.ig_account_id img cap conn.access_token = .error e →
      (execute_publish api store p img cap).2.1 = .error e) := by
  constructor
  · simp [execute_publish, h]
  · intro e he
    simp [execute_publish, h, he]

/-- Witness for `execute_publish_single_attempt` at a concrete store and a
failing platform API. -/
theorem execute_publish_single_attempt_witness :
    execute_publish
        ⟨fun u => .ok u, fun _ _ _ _ => .error "boom",
          fun _ _ _ => .ok "FINISHED", fun _ _ _ => .ok "m1"⟩
        [("p1", ⟨"T", "a1", "u1", none, some "t0", none⟩)] "p1" "img" "cap" =
      ([("p1", ⟨"T", "a1", "u1", none, some "t0", none⟩)],
        publish_attempt
          ⟨fun u => .ok u, fun _ _ _ _ => .error "boom",
            fun _ _ _ => .ok "FINISHED", fun _ _ _ => .ok "m1"⟩ "a1" "img" "cap" "T",
        ["T"]) :=
  (execute_publish_single_attempt
    ⟨fun u => .ok u, fun _ _ _ _ => .error "boom",
      fun _ _ _ => .ok "FINISHED", fun _ _ _ => .ok "m1"⟩
    [("p1", ⟨"T", "a1", "u1", none, some "t0", none⟩)] "p1" "img" "cap"
    ⟨"T", "a1", "u1", none, some "t0", none⟩ rfl).1

/-- C7: for a connected persona, scheduling a post whose `publish_at` lies at
or before now minus the 60-second grace window fails with a 400 validation
error, while scheduling a post whose `publish_at` is strictly in the future
always succeeds and the created job appears in that persona's schedule
list. -/
theorem schedule_past_rejected_future_listed (store : TokenStore) (p : String)
    (conn : Connection) (now t : Nat) (img cap : String) (bodyIg : Option String)
    (ss : SchedState) (h : store.lookup p = some conn) :
    (t + 60 ≤ now →
      create_schedule store now p bodyIg [⟨img, cap, t⟩] ss =
        (ss, .error ⟨400, "排程時間必須是未來時間。收到：" ++ toString t ++
          "（請選擇至少 1 分鐘後的時間）"⟩)) ∧
    (now < t →
      ∃ jid ss', create_schedule store now p bodyIg [⟨img, cap, t⟩] ss =
          (ss', .ok [(jid, t)]) ∧
        ∃ info ∈ get_scheduled_posts p ss', info.job_id = jid ∧ info.run_date = t) := by
  have hst : get_connection_status store p =
      .connected conn.ig_account_id conn.ig_username conn.connected_at := by
    simp [get_connection_status, h]
  constructor
  · intro hpast
    have hle : t ≤ floorMinute now := by
      unfold floorMinute
      omega
    simp [create_schedule, hst, scheduleLoop, hle]
  · intro hfut
    have hgt : ¬ (t ≤ floorMinute now) := by
      unfold floorMinute
      omega
    refine ⟨freshJobId ss.nextId,
      ⟨ss.jobs ++ [⟨freshJobId ss.nextId, p ++ ":" ++ cap.take 30, t, p, img, cap⟩],
        ss.nextId + 1⟩, ?_, ?_⟩
    · simp [create_schedule, hst, scheduleLoop, hgt, schedule_post]
    · refine ⟨⟨freshJobId ss.nextId, p ++ ":" ++ cap.take 30, t, p⟩, ?_, rfl, rfl⟩
      unfold get_scheduled_posts
      refine List.mem_map.mpr
        ⟨⟨freshJobId ss.nextId, p ++ ":" ++ cap.take 30, t, p, img, cap⟩, ?_, rfl⟩
      refine List.mem_filter.mpr ⟨List.mem_append_right _ (List.mem_singleton.mpr rfl), ?_⟩
      have : (p ++ ":" ++ cap.take 30).data = (p ++ ":").data ++ (cap.take 30).data :=
        String.data_append _ _
      simp only [this]
      rw [ List.isPrefixOf_iff_prefix]
      exact List.prefix_append _ _

/-- Witness for `schedule_past_rejected_future_listed`: a connected persona,
a past time (60 s beyond the grace cutoff) rejected, and a future time
scheduled and listed. -/
theorem schedule_past_rejected_future_listed_witness :
    (create_schedule [("p1", ⟨"T", "a1", "u1", none, some "t0", none⟩)] 120 "p1" none
        [⟨"img", "cap", 60⟩] ⟨[], 0⟩ =
      (⟨[], 0⟩, .error ⟨400, "排程時間必須是未來時間。收到：" ++ toString 60 ++
        "（請選擇至少 1 分鐘後的時間）"⟩)) ∧
    (∃ jid ss', create_schedule [("p1", ⟨"T", "a1", "u1", none, some "t0", none⟩)] 120
        "p1" none [⟨"img", "cap", 200⟩] ⟨[], 0⟩ = (ss', .ok [(jid, 200)]) ∧
      ∃ info ∈ get_scheduled_posts "p1" ss', info.job_id = jid ∧ info.run_date = 200) :=
  ⟨(schedule_past_rejected_future_listed [("p1", ⟨"T", "a1", "u1", none, some "t0", none⟩)]
      "p1" ⟨"T", "a1", "u1", none, some "t0", none⟩ 120 60 "img" "cap" none ⟨[], 0⟩
      rfl).1 (by decide),
    (schedule_past_rejected_future_listed [("p1", ⟨"T", "a1", "u1", none, some "t0", none⟩)]
      "p1" ⟨"T", "a1", "u1", none, some "t0", none⟩ 120 200 "img" "cap" none ⟨[], 0⟩
      rfl).2 (by decide)⟩

theorem handle_comment_auto_send (env : WebhookEnv) (store : TokenStore)
    (settings : List (String × String)) (persona : String) (cidV midV nmV : JVal)
    (txt : String) (conn : Connection) (ds : DraftState)
    (hmode : get_auto_reply_setting settings persona = "auto")
    (hrisk : check_risk txt = "low")
    (hconn : store.lookup persona = some conn)
    (htok : conn.access_token ≠ "")
    (hsend : env.replyOk cidV conn.access_token = true) :
    handle_comment env store settings persona cidV midV nmV (.jstr txt) ds =
      ⟨upsert (freshReplyId ds.nextId)
          ⟨freshReplyId ds.nextId, persona, cidV, midV, nmV, .jstr txt,
            env.draftGen persona (.jstr txt) nmV, "low", "sent", env.now⟩
          (upsert (freshReplyId ds.nextId)
            ⟨freshReplyId ds.nextId, persona, cidV, midV, nmV, .jstr txt,
              env.draftGen persona (.jstr txt) nmV, "low", "pending", env.now⟩
            ds.replies),
        ds.nextId + 1⟩ := by
  simp [handle_comment, hmode, hrisk, hconn, htok, hsend, add_pending_reply,
    send_reply, lookup_upsert_self]

theorem handle_comment_queues (env : WebhookEnv) (store : TokenStore)
    (settings : List (String × String)) (persona : String) (cidV midV nmV : JVal)
    (txt : String) (ds : DraftState)
    (hother : ¬ (get_auto_reply_setting settings persona = "auto" ∧
      check_risk txt = "low" ∧
      ((store.lookup persona).map Connection.access_token).getD "" ≠ "")) :
    handle_comment env store settings persona cidV midV nmV (.jstr txt) ds =
      ⟨upsert (freshReplyId ds.nextId)
          ⟨freshReplyId ds.nextId, persona, cidV, midV, nmV, .jstr txt,
            env.draftGen persona (.jstr txt) nmV, check_risk txt, "pending", env.now⟩
          ds.replies,
        ds.nextId + 1⟩ := by
  by_cases h1 : get_auto_reply_setting settings persona = "auto" ∧ check_risk txt = "low"
  · have haccess : ((store.lookup persona).map Connection.access_token).getD "" = "" := by
      by_contra hacc
      exact hother ⟨h1.1, h1.2, hacc⟩
    simp [handle_comment, h1.1, h1.2, haccess, add_pending_reply]
  · simp only [handle_comment, add_pending_reply]
    rw [if_neg h1]

/-- C1 (code contradicts its own security tests): a webhook POST whose
signature header is wrong is processed exactly like a correctly signed one —
the handler performs no signature verification at all — so the store is
mutated (a pending ReplyDraft is created) and the normal 200 response is
returned, instead of a 403 rejection before any state mutation. -/
theorem webhook_bad_signature_still_mutates :
    webhook_post ⟨fun _ _ _ => "thanks!", fun _ _ => true, "t0"⟩ [] []
        (some "sha256=invalidsignature") (commentPayload "cmt1" "acct9" "Bob" "hello")
        ⟨[], 0⟩ =
      (⟨[("reply-0", ⟨"reply-0", "demo", .jstr "cmt1", .jstr "", .jstr "Bob",
          .jstr "hello", "thanks!", "low", "pending", "t0"⟩)], 1⟩, .ok ()) ∧
    (webhook_post ⟨fun _ _ _ => "thanks!", fun _ _ => true, "t0"⟩ [] []
        (some "sha256=invalidsignature") (commentPayload "cmt1" "acct9" "Bob" "hello")
        ⟨[], 0⟩).1.replies.map Prod.fst = ["reply-0"] :=
  ⟨rfl, rfl⟩

/-- C5: for a webhook comment event, if the resolved persona's mode is
`auto`, the classified risk is `low`, and a Connection with a non-empty
access token is stored (and the platform reply dispatch succeeds), the draft
is created and immediately sent in the same handling pass — the stored draft
ends with status `"sent"`; otherwise (mode `draft`, or high risk, or no
usable stored token) the draft is created and left `"pending"`. -/
theorem webhook_auto_low_sends_otherwise_pending (env : WebhookEnv)
    (store : TokenStore) (settings : List (String × String))
    (cid fid nm txt : String) (conn : Connection) (ds : DraftState)
    (htxt : txt ≠ "") :
    (get_auto_reply_setting settings (resolve_persona store (.jstr fid)) = "auto" →
      check_risk txt = "low" →
      store.lookup (resolve_persona store (.jstr fid)) = some conn →
      conn.access_token ≠ "" →
      env.replyOk (.jstr cid) conn.access_token = true →
      ∃ replies',
        instagram_webhook env store settings (commentPayload cid fid nm txt) ds =
          (⟨replies', ds.nextId + 1⟩, .ok ()) ∧
        replies'.lookup (freshReplyId ds.nextId) =
          some ⟨freshReplyId ds.nextId, resolve_persona store (.jstr fid), .jstr cid,
            .jstr "", .jstr nm, .jstr txt,
            env.draftGen (resolve_persona store (.jstr fid)) (.jstr txt) (.jstr nm),
            "low", "sent", env.now⟩) ∧
    (¬ (get_auto_reply_setting settings (resolve_persona store (.jstr fid)) = "auto" ∧
        check_risk txt = "low" ∧
        ((store.lookup (resolve_persona store (.jstr fid))).map
          Connection.access_token).getD "" ≠ "") →
      instagram_webhook env store settings (commentPayload cid fid nm txt) ds =
        (⟨upsert (freshReplyId ds.nextId)
            ⟨freshReplyId ds.nextId, resolve_persona store (.jstr fid), .jstr cid,
              .jstr "", .jstr nm, .jstr txt,
              env.draftGen (resolve_persona store (.jstr fid)) (.jstr txt) (.jstr nm),
              check_risk txt, "pending", env.now⟩ ds.replies,
          ds.nextId + 1⟩, .ok ())) := by
  have hw := instagram_webhook_comment env store settings cid fid nm txt ds htxt
  constructor
  · intro hmode hrisk hconn htok hsend
    rw [hw, handle_comment_auto_send env store settings _ _ _ _ txt conn ds
      hmode hrisk hconn htok hsend]
    exact ⟨_, rfl, lookup_upsert_self _ _ _⟩
  · intro hother
    rw [hw, handle_comment_queues env store settings _ _ _ _ txt ds hother]

/-- Witness for `webhook_auto_low_sends_otherwise_pending`: an auto-mode
persona with a stored token auto-sends a low-risk comment; with default
(draft) settings the same comment is queued pending. -/
theorem webhook_auto_low_sends_otherwise_pending_witness :
    (∃ replies',
      instagram_webhook ⟨fun _ _ _ => "d!", fun _ _ => true, "t0"⟩
          [("p9", ⟨"TOK", "acct9", "u9", none, some "t", none⟩)] [("p9", "auto")]
          (commentPayload "c1" "acct9" "Bob" "hello") ⟨[], 0⟩ =
        (⟨replies', 1⟩, .ok ()) ∧
      replies'.lookup "reply-0" =
        some ⟨"reply-0", "p9", .jstr "c1", .jstr "", .jstr "Bob", .jstr "hello",
          "d!", "low", "sent", "t0"⟩) ∧
    instagram_webhook ⟨fun _ _ _ => "d!", fun _ _ => true, "t0"⟩
        [("p9", ⟨"TOK", "acct9", "u9", none, some "t", none⟩)] []
        (commentPayload "c1" "acct9" "Bob" "hello") ⟨[], 0⟩ =
      (⟨[("reply-0", ⟨"reply-0", "p9", .jstr "c1", .jstr "", .jstr "Bob", .jstr "hello",
          "d!", "low", "pending", "t0"⟩)], 1⟩, .ok ()) :=
  ⟨(webhook_auto_low_sends_otherwise_pending
      ⟨fun _ _ _ => "d!", fun _ _ => true, "t0"⟩
      [("p9", ⟨"TOK", "acct9", "u9", none, some "t", none⟩)] [("p9", "auto")]
      "c1" "acct9" "Bob" "hello" ⟨"TOK", "acct9", "u9", none, some "t", none⟩
      ⟨[], 0⟩ (by decide)).1 rfl rfl rfl (by decide) rfl,
    (webhook_auto_low_sends_otherwise_pending
      ⟨fun _ _ _ => "d!", fun _ _ => true, "t0"⟩
      [("p9", ⟨"TOK", "acct9", "u9", none, some "t", none⟩)] []
      "c1" "acct9" "Bob" "hello" ⟨"TOK", "acct9", "u9", none, some "t", none⟩
      ⟨[], 0⟩ (by decide)).2 (by decide)⟩

/-- C6 counterexample: a payload whose first entry is malformed (a string,
not an object) aborts the whole handler with an uncaught `AttributeError` —
the well-formed sibling entry is never processed (no draft is created) and
the normal `{"status": "ok"}` response is not returned. -/
theorem malformed_entry_aborts_siblings :
    instagram_webhook ⟨fun _ _ _ => "d!", fun _ _ => true, "t0"⟩ [] []
        (.jobj [("entry", .jarr [.jstr "oops", commentEntry "c2" "f2" "Ann" "hi"])])
        ⟨[], 0⟩ =
      (⟨[], 0⟩, .error .attributeError) ∧
    (Except.error .attributeError : Except PyErr Unit) ≠ .ok () :=
  ⟨rfl, by simp⟩

/-- C6 amended: failures inside the per-change guarded step (draft
generation, risk check, store insert, reply dispatch) are caught, so a
payload of well-formed comment entries is always fully processed with the
normal response, whatever the dispatch outcomes; but an entry that is not a
JSON object raises `AttributeError` outside that guard and aborts the
processing of all remaining entries, with no mutation for them. -/
theorem webhook_isolation_only_inside_guard (env : WebhookEnv)
    (store : TokenStore) (settings : List (String × String)) (v : JVal)
    (cid fid nm txt cid₂ fid₂ nm₂ txt₂ : String) (ds : DraftState)
    (hv : v.isObj = false) (htxt : txt ≠ "") (htxt₂ : txt₂ ≠ "") :
    instagram_webhook env store settings
        (.jobj [("entry", .jarr [v, commentEntry cid fid nm txt])]) ds =
      (ds, .error .attributeError) ∧
    (∃ ds', instagram_webhook env store settings
        (.jobj [("entry",
          .jarr [commentEntry cid fid nm txt, commentEntry cid₂ fid₂ nm₂ txt₂])]) ds =
      (ds', .ok ())) := by
  constructor
  · have hpe : processEntry env store settings v ds = (ds, some .attributeError) := by
      cases v <;> simp_all [processEntry, pyGet, JVal.isObj]
    simp [instagram_webhook, pyGet, List.lookup, pyIter, runEntries, hpe]
  · refine ⟨handle_comment env store settings (resolve_persona store (.jstr fid₂))
        (.jstr cid₂) (.jstr "") (.jstr nm₂) (.jstr txt₂)
        (handle_comment env store settings (resolve_persona store (.jstr fid))
          (.jstr cid) (.jstr "") (.jstr nm) (.jstr txt) ds), ?_⟩
    simp [instagram_webhook, pyGet, List.lookup, pyIter, runEntries,
      processEntry_comment env store settings cid fid nm txt ds htxt,
      processEntry_comment env store settings cid₂ fid₂ nm₂ txt₂ _ htxt₂]

/-- Witness for `webhook_isolation_only_inside_guard` at a concrete
malformed first entry and two concrete well-formed entries (with a reply
dispatch that always fails, showing guarded-step failures are isolated). -/
theorem webhook_isolation_only_inside_guard_witness :
    instagram_webhook ⟨fun _ _ _ => "d!", fun _ _ => false, "t0"⟩ [] []
        (.jobj [("entry", .jarr [.jnum 7, commentEntry "c1" "f1" "Bob" "hey"])])
        ⟨[], 0⟩ =
      (⟨[], 0⟩, .error .attributeError) ∧
    (∃ ds', instagram_webhook ⟨fun _ _ _ => "d!", fun _ _ => false, "t0"⟩ [] []
        (.jobj [("entry",
          .jarr [commentEntry "c1" "f1" "Bob" "hey", commentEntry "c2" "f2" "Ann" "hi"])])
        ⟨[], 0⟩ =
      (ds', .ok ())) :=
  webhook_isolation_only_inside_guard ⟨fun _ _ _ => "d!", fun _ _ => false, "t0"⟩ [] []
    (.jnum 7) "c1" "f1" "Bob" "hey" "c2" "f2" "Ann" "hi" ⟨[], 0⟩
    rfl (by decide) (by decide)

end VirtualPrism
